import Mathlib

/-!
Verification of the QKD satellite simulation pipeline.

This development embeds the computational core of the simulator: the
function `simulate_qkd_satellite` (basis generation, basis reconciliation,
QBER modeling, key reduction, the XOR cipher, security assessment, and the
security timeline), the `run_simulation` entry point that validates the
message, and the error-check / terminal decision of the protocol animation
driver `run_animation`.

Modelling conventions:
* The process-wide random number generator is modelled as an explicit
  `Oracle` value: one field per independent stream of draws the source
  makes (`np.random.choice` for bases/bits, `np.random.uniform` for the
  QBER and the security metrics, `np.random.randint` for the security
  parameter, `np.random.random` for the timeline coins).  A seed determines
  the oracle, so the pipeline is a pure function of message, interception
  flag and oracle.  `Oracle.WF` records the ranges guaranteed by the
  sampling calls; numpy's `uniform(a, b)` and `random()` draw from the
  half-open interval `[a, b)`, and `randint(a, b)` draws an integer from
  `[a, b)`.
* Python floats that only get stored and compared are modelled as
  rationals.  The two float multiplications whose truncation `int(...)`
  is observable, `int(raw_key_size * 0.2)` and `int(raw_key_size * 0.1)`,
  are modelled with the exact rational values of the IEEE-754 doubles
  `0.2 = 3602879701896397 / 2^54` and `0.1 = 3602879701896397 / 2^55`;
  for every `R ≤ 1024` (the only values the pipeline can produce) the
  rounding of the product never crosses an integer, so the floor of the
  exact product equals the Python result.
* `max_leakage = 2 ** (-security_parameter / 8)` is modelled with the real
  power function.
* Messages are byte lists (the result of `message.encode('utf-8')`);
  `decrypted_message` is likewise kept at the byte level, since
  `bytes.decode('utf-8')` inverts `str.encode('utf-8')`.
-/

set_option maxRecDepth 8192

namespace QKD

/-- The random draws consumed by one run of `simulate_qkd_satellite`.
Each field corresponds to one family of `np.random` calls in the source. -/
structure Oracle where
  aliceBasisAt : ℕ → Bool
  bobBasisAt : ℕ → Bool
  rawBitAt : ℕ → Bool
  qberHigh : ℚ
  qberLow : ℚ
  finalKeyBitAt : ℕ → Bool
  entropyReduction : ℚ
  securityParameter : ℕ
  compromiseEstimate : ℚ
  confidenceLevel : ℚ
  timelineQberHighAt : ℕ → ℚ
  timelineQberLowAt : ℕ → ℚ
  timelineCoinAt : ℕ → ℚ

/-- Ranges guaranteed by the numpy sampling calls the source makes:
`uniform(a, b)` and `random()` draw from `[a, b)` (resp. `[0, 1)`), and
`randint(a, b)` draws an integer from `[a, b)`. -/
structure Oracle.WF (o : Oracle) : Prop where
  qberHigh_lb : 15 ≤ o.qberHigh
  qberHigh_ub : o.qberHigh < 25
  qberLow_lb : 2 ≤ o.qberLow
  qberLow_ub : o.qberLow < 8
  entropyReduction_lb : 10 ≤ o.entropyReduction
  entropyReduction_ub : o.entropyReduction < 20
  securityParameter_lb : 50 ≤ o.securityParameter
  securityParameter_ub : o.securityParameter < 200
  compromiseEstimate_lb : 20 ≤ o.compromiseEstimate
  compromiseEstimate_ub : o.compromiseEstimate < 60
  confidenceLevel_lb : 70 ≤ o.confidenceLevel
  confidenceLevel_ub : o.confidenceLevel < 99
  timelineQberHigh_range : ∀ i, 12 ≤ o.timelineQberHighAt i ∧ o.timelineQberHighAt i < 25
  timelineQberLow_range : ∀ i, 1 ≤ o.timelineQberLowAt i ∧ o.timelineQberLowAt i < 8
  timelineCoin_range : ∀ i, 0 ≤ o.timelineCoinAt i ∧ o.timelineCoinAt i < 1

/-- Source: `sequence_length = 1024`. -/
def sequence_length : ℕ := 1024

/-- Source: `error_correction_reduction = int(raw_key_size * 0.2)`.
The IEEE-754 double `0.2` is exactly `3602879701896397 / 2^54`; for the
values `R ≤ 1024` arising in the pipeline the floor of the exact product
equals Python's truncation of the rounded product (and equals `R / 5`,
see `error_correction_reduction_eq`). -/
def error_correction_reduction (R : ℕ) : ℕ :=
  R * 3602879701896397 / 18014398509481984

/-- Source: `privacy_amplification_reduction = int(raw_key_size * 0.1)`.
The IEEE-754 double `0.1` is exactly `3602879701896397 / 2^55`. -/
def privacy_amplification_reduction (R : ℕ) : ℕ :=
  R * 3602879701896397 / 36028797018963968

/-- Source: `int(chunk, 2)` — parse a bit string as a binary number,
most significant bit first. -/
def int_base2 (bits : List Bool) : ℕ :=
  bits.foldl (fun a b => 2 * a + cond b 1 0) 0

/-- Source: the slices `final_key[i:i+8] for i in range(0, len(final_key), 8)` —
split a bit list into chunks of 8, the last chunk possibly shorter. -/
def chunks8 (l : List Bool) : List (List Bool) :=
  if h : l = [] then []
  else l.take 8 :: chunks8 (l.drop 8)
termination_by l.length
decreasing_by
  simp only [List.length_drop]
  have : 0 < l.length := List.length_pos.mpr h
  omega

/-- Source: Python sequence repetition `key_bytes * n` — `n` concatenated
copies of the list. -/
def list_mul (l : List ℕ) (n : ℕ) : List ℕ :=
  (List.replicate n l).flatten

/-- Source, line 1046/1047: `''.join(np.random.choice(['0','1'], size=sequence_length))`. -/
def alice_bases (o : Oracle) : List Bool :=
  (List.range sequence_length).map o.aliceBasisAt

/-- Source, line 1047: Bob's basis string. -/
def bob_bases (o : Oracle) : List Bool :=
  (List.range sequence_length).map o.bobBasisAt

/-- Source, line 1050: the raw quantum bit string. -/
def raw_bits (o : Oracle) : List Bool :=
  (List.range sequence_length).map o.rawBitAt

/-- Source, line 1053:
`[i for i in range(sequence_length) if alice_bases[i] == bob_bases[i]]`. -/
def matching_indices (o : Oracle) : List ℕ :=
  (List.range sequence_length).filter fun i => o.aliceBasisAt i == o.bobBasisAt i

/-- Source, line 1054: `matching_bases = len(matching_indices)`. -/
def matching_bases (o : Oracle) : ℕ :=
  (matching_indices o).length

/-- Source, line 1055: `(matching_bases / sequence_length) * 100`. -/
def matching_percentage (o : Oracle) : ℚ :=
  ((matching_bases o : ℚ) / (sequence_length : ℚ)) * 100

/-- Source, line 1058: `''.join([raw_bits[i] for i in matching_indices])`. -/
def raw_key (o : Oracle) : List Bool :=
  (matching_indices o).map o.rawBitAt

/-- Source, line 1059: `raw_key_size = len(raw_key)`. -/
def raw_key_size (o : Oracle) : ℕ :=
  (raw_key o).length

/-- Source, lines 1062-1068: the drawn QBER value, `uniform(15.0, 25.0)` when
interception is simulated and `uniform(2.0, 8.0)` otherwise. -/
def qber (simulate_interception : Bool) (o : Oracle) : ℚ :=
  if simulate_interception then o.qberHigh else o.qberLow

/-- Source, lines 1065/1069: `intercept_detected = True` in the interception
branch, `qber > 11.0` otherwise. -/
def intercept_detected (simulate_interception : Bool) (o : Oracle) : Bool :=
  if simulate_interception then true
  else decide (qber simulate_interception o > 11)

/-- Source, lines 1076-1079: `raw_key_size - error_correction_reduction -
privacy_amplification_reduction`, then `max(final_key_size, 16)`.  Computed
in `ℤ` because Python integer subtraction does not truncate at zero. -/
def final_key_size (o : Oracle) : ℕ :=
  (max ((raw_key_size o : ℤ)
      - error_correction_reduction (raw_key_size o)
      - privacy_amplification_reduction (raw_key_size o)) 16).toNat

/-- Source, line 1082: the final key is a fresh draw of `final_key_size`
uniform bits (not derived from `raw_key`). -/
def final_key (o : Oracle) : List Bool :=
  (List.range (final_key_size o)).map o.finalKeyBitAt

/-- Source, line 1085:
`bytes([int(final_key[i:i+8], 2) for i in range(0, len(final_key), 8)])`. -/
def key_bytes (o : Oracle) : List ℕ :=
  (chunks8 (final_key o)).map int_base2

/-- Source, line 1089:
`key_repeated = key_bytes * (len(message_bytes) // len(key_bytes) + 1)`. -/
def key_repeated (message : List ℕ) (o : Oracle) : List ℕ :=
  list_mul (key_bytes o) (message.length / (key_bytes o).length + 1)

/-- Source, line 1090: `bytes([a ^ b for a, b in
zip(message_bytes, key_repeated[:len(message_bytes)])])`. -/
def encrypted_message (message : List ℕ) (o : Oracle) : List ℕ :=
  List.zipWith (fun a b => a ^^^ b) message ((key_repeated message o).take message.length)

/-- Source, line 1096: decryption is the same XOR against
`key_repeated[:len(encrypted_message)]`. -/
def decrypted_message (message : List ℕ) (o : Oracle) : List ℕ :=
  List.zipWith (fun a b => a ^^^ b) (encrypted_message message o)
    ((key_repeated message o).take (encrypted_message message o).length)

/-- Source, line 1100: `qber_threshold = 10.0`. -/
def qber_threshold : ℚ := 10

/-- Source, line 1103: `max_leakage = 2 ** (-security_parameter / 8)`. -/
noncomputable def max_leakage (security_parameter : ℕ) : ℝ :=
  (2 : ℝ) ^ (-(security_parameter : ℝ) / 8)

/-- Source, lines 1106-1115: `"COMPROMISED"` when the intercept was
detected, `"SECURE"` otherwise. -/
def security_status (simulate_interception : Bool) (o : Oracle) : String :=
  if intercept_detected simulate_interception o then "COMPROMISED" else "SECURE"

/-- Source, lines 1106-1115: channel security classification. -/
def channel_security (simulate_interception : Bool) (o : Oracle) : String :=
  if intercept_detected simulate_interception o then "INSECURE" else "SECURE"

/-- Source, lines 1106-1115: `uniform(20.0, 60.0)` when detected, `0.0`
otherwise. -/
def compromise_estimate (simulate_interception : Bool) (o : Oracle) : ℚ :=
  if intercept_detected simulate_interception o then o.compromiseEstimate else 0

/-- Source, lines 1106-1115: `uniform(70.0, 99.0)` when detected, `99.9`
otherwise. -/
def confidence_level (simulate_interception : Bool) (o : Oracle) : ℚ :=
  if intercept_detected simulate_interception o then o.confidenceLevel else 99.9

/-- One entry of the security timeline: a QBER value and a status label. -/
structure SecuritySample where
  qber : ℚ
  status : String
deriving DecidableEq, Repr

/-- Source, lines 1118-1131: twenty samples; when the intercept was detected
each has `qber = uniform(12.0, 25.0)` and status `WARNING`/`ALERT` (coin
threshold 0.7), otherwise `qber = uniform(1.0, 8.0)` and status
`SECURE`/`CHECK` (coin threshold 0.9). -/
def security_timeline (simulate_interception : Bool) (o : Oracle) : List SecuritySample :=
  (List.range 20).map fun i =>
    if intercept_detected simulate_interception o then
      { qber := o.timelineQberHighAt i
        status := if o.timelineCoinAt i < 0.7 then "WARNING" else "ALERT" }
    else
      { qber := o.timelineQberLowAt i
        status := if o.timelineCoinAt i < 0.9 then "SECURE" else "CHECK" }

/-- The dictionary returned by `simulate_qkd_satellite` (source,
lines 1134-1157).  `encrypted_message` is kept as the ciphertext byte list
(the source stores its hex rendering, an injective re-encoding);
`original_message` and `decrypted_message` are byte lists (see the header
comment); `max_leakage` is the real value `2 ** (-security_parameter / 8)`. -/
structure SimulationResult where
  original_message : List ℕ
  encrypted_message : List ℕ
  decrypted_message : List ℕ
  alice_bases : List Bool
  bob_bases : List Bool
  matching_bases : ℕ
  matching_percentage : ℚ
  raw_key : List Bool
  raw_key_size : ℕ
  final_key : List Bool
  final_key_size : ℕ
  qber : ℚ
  qber_threshold : ℚ
  intercept_detected : Bool
  security_status : String
  security_timeline : List SecuritySample
  entropy_reduction : ℚ
  security_parameter : ℕ
  max_leakage : ℝ
  channel_security : String
  compromise_estimate : ℚ
  confidence_level : ℚ

/-- Source, lines 1043-1157: the full computational pipeline, assembled from
the component definitions above (each of which mirrors one local variable
of the Python function). -/
noncomputable def simulate_qkd_satellite (message : List ℕ)
    (simulate_interception : Bool) (o : Oracle) : SimulationResult where
  original_message := message
  encrypted_message := encrypted_message message o
  decrypted_message := decrypted_message message o
  alice_bases := alice_bases o
  bob_bases := bob_bases o
  matching_bases := matching_bases o
  matching_percentage := matching_percentage o
  raw_key := raw_key o
  raw_key_size := raw_key_size o
  final_key := final_key o
  final_key_size := final_key_size o
  qber := qber simulate_interception o
  qber_threshold := qber_threshold
  intercept_detected := intercept_detected simulate_interception o
  security_status := security_status simulate_interception o
  security_timeline := security_timeline simulate_interception o
  entropy_reduction := o.entropyReduction
  security_parameter := o.securityParameter
  max_leakage := max_leakage o.securityParameter
  channel_security := channel_security simulate_interception o
  compromise_estimate := compromise_estimate simulate_interception o
  confidence_level := confidence_level simulate_interception o

/-- Source, lines 873-891 (`run_simulation`): an empty message is rejected
with an error dialog before `simulate_qkd_satellite` is called; otherwise
the pipeline runs and its result is displayed. -/
noncomputable def run_simulation (message : List ℕ)
    (simulate_interception : Bool) (o : Oracle) : Except String SimulationResult :=
  if message = [] then Except.error "Please enter a message to encrypt"
  else Except.ok (simulate_qkd_satellite message simulate_interception o)

/-- Source, line 808 (`run_animation`, phase 4):
`error_percentage = (error_bits / max(matched_bases, 1)) * 100`, computed
from the animation's own per-photon counters. -/
def error_percentage (matched_bases error_bits : ℕ) : ℚ :=
  ((error_bits : ℚ) / (max matched_bases 1 : ℕ)) * 100

/-- Source, line 810: the above/below-threshold verdict string emitted in
phase 4. -/
def error_status (matched_bases error_bits : ℕ) : String :=
  if error_percentage matched_bases error_bits > 10 then "Error rate above threshold!"
  else "Error rate acceptable"

/-- Source, line 827: `secure_key = error_percentage <= 10`. -/
def secure_key (matched_bases error_bits : ℕ) : Bool :=
  decide (error_percentage matched_bases error_bits ≤ 10)

/-- Terminal outcome of the animation's phase 5. -/
inductive PhaseOutcome where
  | KEY_ESTABLISHED
  | ABORTED
deriving DecidableEq, Repr

/-- Source, lines 821-867 (phase 5): key established when `secure_key`,
aborted otherwise. -/
def phase5_result (matched_bases error_bits : ℕ) : PhaseOutcome :=
  if secure_key matched_bases error_bits then PhaseOutcome.KEY_ESTABLISHED
  else PhaseOutcome.ABORTED

/-- A concrete message for witnesses: the UTF-8 bytes of "Hi". -/
def msg0 : List ℕ := [72, 105]

/-- A concrete well-formed oracle for witnesses. -/
def oracle0 : Oracle where
  aliceBasisAt := fun _ => true
  bobBasisAt := fun _ => true
  rawBitAt := fun _ => false
  qberHigh := 20
  qberLow := 5
  finalKeyBitAt := fun _ => true
  entropyReduction := 15
  securityParameter := 100
  compromiseEstimate := 30
  confidenceLevel := 80
  timelineQberHighAt := fun _ => 13
  timelineQberLowAt := fun _ => 2
  timelineCoinAt := fun _ => 1 / 2

lemma oracle0_wf : oracle0.WF := by
  constructor <;> intros <;> constructor <;> norm_num [oracle0]

lemma simulate_original_message (m : List ℕ) (si : Bool) (o : Oracle) :
    (simulate_qkd_satellite m si o).original_message = m := rfl

lemma simulate_encrypted_message (m : List ℕ) (si : Bool) (o : Oracle) :
    (simulate_qkd_satellite m si o).encrypted_message = encrypted_message m o := rfl

lemma simulate_decrypted_message (m : List ℕ) (si : Bool) (o : Oracle) :
    (simulate_qkd_satellite m si o).decrypted_message = decrypted_message m o := rfl

lemma simulate_matching_bases (m : List ℕ) (si : Bool) (o : Oracle) :
    (simulate_qkd_satellite m si o).matching_bases = matching_bases o := rfl

lemma simulate_matching_percentage (m : List ℕ) (si : Bool) (o : Oracle) :
    (simulate_qkd_satellite m si o).matching_percentage = matching_percentage o := rfl

lemma simulate_raw_key (m : List ℕ) (si : Bool) (o : Oracle) :
    (simulate_qkd_satellite m si o).raw_key = raw_key o := rfl

lemma simulate_raw_key_size (m : List ℕ) (si : Bool) (o : Oracle) :
    (simulate_qkd_satellite m si o).raw_key_size = raw_key_size o := rfl

lemma simulate_final_key (m : List ℕ) (si : Bool) (o : Oracle) :
    (simulate_qkd_satellite m si o).final_key = final_key o := rfl

lemma simulate_final_key_size (m : List ℕ) (si : Bool) (o : Oracle) :
    (simulate_qkd_satellite m si o).final_key_size = final_key_size o := rfl

lemma simulate_qber (m : List ℕ) (si : Bool) (o : Oracle) :
    (simulate_qkd_satellite m si o).qber = qber si o := rfl

lemma simulate_qber_threshold (m : List ℕ) (si : Bool) (o : Oracle) :
    (simulate_qkd_satellite m si o).qber_threshold = qber_threshold := rfl

lemma simulate_intercept_detected (m : List ℕ) (si : Bool) (o : Oracle) :
    (simulate_qkd_satellite m si o).intercept_detected = intercept_detected si o := rfl

lemma simulate_security_status (m : List ℕ) (si : Bool) (o : Oracle) :
    (simulate_qkd_satellite m si o).security_status = security_status si o := rfl

lemma simulate_security_timeline (m : List ℕ) (si : Bool) (o : Oracle) :
    (simulate_qkd_satellite m si o).security_timeline = security_timeline si o := rfl

lemma simulate_security_parameter (m : List ℕ) (si : Bool) (o : Oracle) :
    (simulate_qkd_satellite m si o).security_parameter = o.securityParameter := rfl

lemma simulate_max_leakage (m : List ℕ) (si : Bool) (o : Oracle) :
    (simulate_qkd_satellite m si o).max_leakage = max_leakage o.securityParameter := rfl

lemma simulate_channel_security (m : List ℕ) (si : Bool) (o : Oracle) :
    (simulate_qkd_satellite m si o).channel_security = channel_security si o := rfl

lemma simulate_compromise_estimate (m : List ℕ) (si : Bool) (o : Oracle) :
    (simulate_qkd_satellite m si o).compromise_estimate = compromise_estimate si o := rfl

lemma simulate_confidence_level (m : List ℕ) (si : Bool) (o : Oracle) :
    (simulate_qkd_satellite m si o).confidence_level = confidence_level si o := rfl

lemma beq_eq_decide (a b : Bool) : (a == b) = decide (a = b) := by
  cases a <;> cases b <;> rfl

lemma length_filter_range_eq_card (n : ℕ) (p : ℕ → Prop) [DecidablePred p] :
    ((List.range n).filter (fun i => decide (p i))).length =
      ((Finset.range n).filter p).card := by
  induction n with
  | zero => simp
  | succ k ih =>
      rw [List.range_succ, Finset.range_succ, List.filter_append, Finset.filter_insert]
      by_cases h : p k
      · rw [if_pos h, Finset.card_insert_of_not_mem (by simp)]
        simp [h, ih]
      · rw [if_neg h]
        simp [h, ih]

lemma matching_bases_eq_card (o : Oracle) :
    matching_bases o =
      ((Finset.range sequence_length).filter
        (fun i => o.aliceBasisAt i = o.bobBasisAt i)).card := by
  have h : matching_indices o =
      (List.range sequence_length).filter
        (fun i => decide (o.aliceBasisAt i = o.bobBasisAt i)) := by
    simp only [matching_indices, beq_eq_decide]
  rw [matching_bases, h, length_filter_range_eq_card]

lemma mem_matching_indices (o : Oracle) (i : ℕ) :
    i ∈ matching_indices o ↔ i < sequence_length ∧ o.aliceBasisAt i = o.bobBasisAt i := by
  simp [matching_indices, List.mem_filter, List.mem_range]

lemma matching_indices_sorted (o : Oracle) : List.Sorted (· < ·) (matching_indices o) :=
  List.Sorted.filter _ (List.sorted_lt_range sequence_length)

lemma getD_map_range (f : ℕ → Bool) (n i : ℕ) (h : i < n) :
    ((List.range n).map f).getD i false = f i := by
  rw [List.getD_eq_getElem?_getD, List.getElem?_map]
  simp [List.getElem?_range, h]

lemma raw_key_size_le (o : Oracle) : raw_key_size o ≤ 1024 := by
  rw [raw_key_size, raw_key, List.length_map]
  have h := List.length_filter_le
    (fun i => o.aliceBasisAt i == o.bobBasisAt i) (List.range sequence_length)
  simpa [matching_indices, sequence_length] using h

lemma error_correction_reduction_eq (R : ℕ) (h : R ≤ 1024) :
    error_correction_reduction R = R / 5 := by
  rw [error_correction_reduction]; omega

lemma privacy_amplification_reduction_eq (R : ℕ) (h : R ≤ 1024) :
    privacy_amplification_reduction R = R / 10 := by
  rw [privacy_amplification_reduction]; omega

lemma final_key_size_eq (o : Oracle) :
    final_key_size o =
      max (raw_key_size o - raw_key_size o / 5 - raw_key_size o / 10) 16 := by
  have h := raw_key_size_le o
  rw [final_key_size, error_correction_reduction_eq _ h,
    privacy_amplification_reduction_eq _ h]
  omega

lemma final_key_size_ge (o : Oracle) : 16 ≤ final_key_size o := by
  rw [final_key_size]; omega

lemma final_key_length (o : Oracle) : (final_key o).length = final_key_size o := by
  simp [final_key]

lemma final_key_ne_nil (o : Oracle) : final_key o ≠ [] := by
  intro h
  have h1 := final_key_length o
  have h2 := final_key_size_ge o
  rw [h] at h1
  simp at h1
  omega

lemma chunks8_ne_nil (l : List Bool) (h : l ≠ []) : chunks8 l ≠ [] := by
  rw [chunks8]
  simp [h]

lemma key_bytes_ne_nil (o : Oracle) : key_bytes o ≠ [] := by
  simp only [key_bytes, ne_eq, List.map_eq_nil_iff]
  exact chunks8_ne_nil _ (final_key_ne_nil o)

lemma length_list_mul (l : List ℕ) (n : ℕ) : (list_mul l n).length = n * l.length := by
  simp [list_mul, List.length_flatten, List.map_replicate, List.sum_replicate, smul_eq_mul]

lemma le_div_succ_mul (m k : ℕ) (hk : 0 < k) : m ≤ (m / k + 1) * k := by
  have h1 : k * (m / k) + m % k = m := Nat.div_add_mod m k
  have h2 : m % k < k := Nat.mod_lt m hk
  have h3 : (m / k + 1) * k = k * (m / k) + k := by ring
  rw [h3]
  linarith

lemma le_length_key_repeated (m : List ℕ) (o : Oracle) :
    m.length ≤ (key_repeated m o).length := by
  have hk : 0 < (key_bytes o).length := List.length_pos.mpr (key_bytes_ne_nil o)
  rw [key_repeated, length_list_mul]
  exact le_div_succ_mul m.length (key_bytes o).length hk

lemma length_take_key_repeated (m : List ℕ) (o : Oracle) :
    ((key_repeated m o).take m.length).length = m.length := by
  rw [List.length_take, Nat.min_eq_left (le_length_key_repeated m o)]

lemma length_encrypted_message (m : List ℕ) (o : Oracle) :
    (encrypted_message m o).length = m.length := by
  rw [encrypted_message, List.length_zipWith, length_take_key_repeated, Nat.min_self]

lemma zipWith_xor_cancel (m ks : List ℕ) (h : m.length ≤ ks.length) :
    List.zipWith (fun a b => a ^^^ b)
      (List.zipWith (fun a b => a ^^^ b) m ks) ks = m := by
  induction m generalizing ks with
  | nil => simp
  | cons a t ih =>
      cases ks with
      | nil => simp at h
      | cons b kt =>
          simp only [List.zipWith_cons_cons]
          have hh : a ^^^ b ^^^ b = a := by
            rw [Nat.xor_assoc, Nat.xor_self, Nat.xor_zero]
          rw [hh, ih kt (by simpa using h)]

lemma decrypted_message_eq (m : List ℕ) (o : Oracle) : decrypted_message m o = m := by
  rw [decrypted_message, length_encrypted_message, encrypted_message]
  exact zipWith_xor_cancel m _ (length_take_key_repeated m o).ge

lemma max_leakage_strictAnti (s t : ℕ) (h : s < t) : max_leakage t < max_leakage s := by
  apply Real.rpow_lt_rpow_of_exponent_lt (by norm_num)
  have hc : (s : ℝ) < (t : ℝ) := by exact_mod_cast h
  linarith

/-- C1: for every non-empty message, the ciphertext is the XOR of the
message bytes with the keystream obtained by repeating the key bytes and
truncating to the message's byte length; that keystream has exactly the
message's length; XOR-ing the ciphertext with the same keystream gives the
message back; and the result's `decrypted_message` equals its
`original_message`. -/
theorem C1_cipher_roundtrip (m : List ℕ) (si : Bool) (o : Oracle) (_hm : m ≠ []) :
    (simulate_qkd_satellite m si o).encrypted_message =
        List.zipWith (fun a b => a ^^^ b) m ((key_repeated m o).take m.length) ∧
    ((key_repeated m o).take m.length).length = m.length ∧
    List.zipWith (fun a b => a ^^^ b)
        ((simulate_qkd_satellite m si o).encrypted_message)
        ((key_repeated m o).take m.length) = m ∧
    (simulate_qkd_satellite m si o).decrypted_message =
        (simulate_qkd_satellite m si o).original_message := by
  refine ⟨rfl, length_take_key_repeated m o, ?_, ?_⟩
  · rw [simulate_encrypted_message, encrypted_message]
    exact zipWith_xor_cancel m _ (length_take_key_repeated m o).ge
  · rw [simulate_decrypted_message, simulate_original_message, decrypted_message_eq]

/-- Witness for C1 at the concrete message `msg0` and oracle `oracle0`. -/
theorem C1_cipher_roundtrip_witness :
    msg0 ≠ [] ∧
    (simulate_qkd_satellite msg0 false oracle0).decrypted_message =
      (simulate_qkd_satellite msg0 false oracle0).original_message :=
  ⟨by decide, (C1_cipher_roundtrip msg0 false oracle0 (by decide)).2.2.2⟩

/-- C2: the final key length is `max(R - ⌊0.2R⌋ - ⌊0.1R⌋, 16)` where `R` is
the raw key length (so it is always at least 16), and the final key is a
fresh draw from the dedicated key-bit stream: it is unchanged under any
replacement of the raw-bit stream. -/
theorem C2_key_reduction (m : List ℕ) (si : Bool) (o : Oracle) :
    (simulate_qkd_satellite m si o).final_key_size =
        max ((simulate_qkd_satellite m si o).raw_key_size
            - (simulate_qkd_satellite m si o).raw_key_size / 5
            - (simulate_qkd_satellite m si o).raw_key_size / 10) 16 ∧
    16 ≤ (simulate_qkd_satellite m si o).final_key_size ∧
    (simulate_qkd_satellite m si o).final_key =
        (List.range (simulate_qkd_satellite m si o).final_key_size).map
          o.finalKeyBitAt ∧
    ∀ f : ℕ → Bool,
      (simulate_qkd_satellite m si { o with rawBitAt := f }).final_key =
        (simulate_qkd_satellite m si o).final_key := by
  refine ⟨?_, ?_, rfl, ?_⟩
  · rw [simulate_final_key_size, simulate_raw_key_size, final_key_size_eq]
  · rw [simulate_final_key_size]
    exact final_key_size_ge o
  · intro f
    rw [simulate_final_key, simulate_final_key]
    simp [final_key, final_key_size, raw_key_size, raw_key, List.length_map,
      matching_indices]

/-- C3: `matching_bases` counts the positions where the two basis streams
agree on the first 1024 indices, `matching_percentage` is that count over
1024 times 100, the matching indices are listed in strictly ascending
order and are exactly the agreeing positions, the raw key reads
`raw_bits` at those indices in that order, and `raw_key_size` equals
`matching_bases`. -/
theorem C3_basis_reconciliation (m : List ℕ) (si : Bool) (o : Oracle) :
    (simulate_qkd_satellite m si o).matching_bases =
        ((Finset.range sequence_length).filter
          (fun i => o.aliceBasisAt i = o.bobBasisAt i)).card ∧
    (simulate_qkd_satellite m si o).matching_percentage =
        ((simulate_qkd_satellite m si o).matching_bases : ℚ) / 1024 * 100 ∧
    (∀ i, i ∈ matching_indices o ↔
        i < sequence_length ∧ o.aliceBasisAt i = o.bobBasisAt i) ∧
    List.Sorted (· < ·) (matching_indices o) ∧
    (simulate_qkd_satellite m si o).raw_key =
        (matching_indices o).map (fun i => (raw_bits o).getD i false) ∧
    (simulate_qkd_satellite m si o).raw_key_size =
        (simulate_qkd_satellite m si o).matching_bases := by
  refine ⟨?_, ?_, mem_matching_indices o, matching_indices_sorted o, ?_, ?_⟩
  · rw [simulate_matching_bases, matching_bases_eq_card]
  · rw [simulate_matching_percentage, simulate_matching_bases,
      matching_percentage, sequence_length]
    norm_num
  · rw [simulate_raw_key, raw_key]
    refine List.map_congr_left ?_
    intro i hi
    have hlt : i < sequence_length := ((mem_matching_indices o i).mp hi).1
    rw [raw_bits, getD_map_range _ _ _ hlt]
  · rw [simulate_raw_key_size, simulate_matching_bases, raw_key_size, raw_key,
      List.length_map, matching_bases]

/-- C4: with interception requested the QBER is drawn in [15, 25] and
detection is unconditional; without it the QBER is drawn in [2, 8] and
detection is the comparison `qber > 11`; the published threshold field is
the distinct constant 10. -/
theorem C4_qber_model (m : List ℕ) (si : Bool) (o : Oracle) (h : o.WF) :
    (si = true → 15 ≤ (simulate_qkd_satellite m si o).qber ∧
        (simulate_qkd_satellite m si o).qber ≤ 25 ∧
        (simulate_qkd_satellite m si o).intercept_detected = true) ∧
    (si = false → 2 ≤ (simulate_qkd_satellite m si o).qber ∧
        (simulate_qkd_satellite m si o).qber ≤ 8 ∧
        (simulate_qkd_satellite m si o).intercept_detected =
          decide ((simulate_qkd_satellite m si o).qber > 11)) ∧
    (simulate_qkd_satellite m si o).qber_threshold = 10 := by
  refine ⟨?_, ?_, rfl⟩
  · rintro rfl
    exact ⟨h.qberHigh_lb, le_of_lt h.qberHigh_ub, rfl⟩
  · rintro rfl
    exact ⟨h.qberLow_lb, le_of_lt h.qberLow_ub, rfl⟩

/-- Witness for C4 at the interception run of `oracle0`. -/
theorem C4_qber_model_witness :
    15 ≤ (simulate_qkd_satellite msg0 true oracle0).qber ∧
    (simulate_qkd_satellite msg0 true oracle0).intercept_detected = true :=
  ⟨((C4_qber_model msg0 true oracle0 oracle0_wf).1 rfl).1,
   ((C4_qber_model msg0 true oracle0 oracle0_wf).1 rfl).2.2⟩

/-- C5: on detection the status is COMPROMISED / INSECURE with a
compromise estimate in [20, 60] and confidence in [70, 99]; otherwise it
is SECURE / SECURE with estimate 0 and confidence 99.9; in both cases the
security parameter is an integer in [50, 200], the leakage bound is
`2 ^ (-securityParameter / 8)`, and that bound is strictly decreasing in
the security parameter. -/
theorem C5_security_assessment (m : List ℕ) (si : Bool) (o : Oracle) (h : o.WF) :
    ((simulate_qkd_satellite m si o).intercept_detected = true →
        (simulate_qkd_satellite m si o).security_status = "COMPROMISED" ∧
        (simulate_qkd_satellite m si o).channel_security = "INSECURE" ∧
        20 ≤ (simulate_qkd_satellite m si o).compromise_estimate ∧
        (simulate_qkd_satellite m si o).compromise_estimate ≤ 60 ∧
        70 ≤ (simulate_qkd_satellite m si o).confidence_level ∧
        (simulate_qkd_satellite m si o).confidence_level ≤ 99) ∧
    ((simulate_qkd_satellite m si o).intercept_detected = false →
        (simulate_qkd_satellite m si o).security_status = "SECURE" ∧
        (simulate_qkd_satellite m si o).channel_security = "SECURE" ∧
        (simulate_qkd_satellite m si o).compromise_estimate = 0 ∧
        (simulate_qkd_satellite m si o).confidence_level = 99.9) ∧
    50 ≤ (simulate_qkd_satellite m si o).security_parameter ∧
    (simulate_qkd_satellite m si o).security_parameter ≤ 200 ∧
    (simulate_qkd_satellite m si o).max_leakage =
        max_leakage (simulate_qkd_satellite m si o).security_parameter ∧
    ∀ s t : ℕ, s < t → max_leakage t < max_leakage s := by
  refine ⟨?_, ?_, h.securityParameter_lb,
    Nat.le_of_lt (lt_of_lt_of_le h.securityParameter_ub (by norm_num)),
    rfl, max_leakage_strictAnti⟩
  · intro hd
    rw [simulate_intercept_detected] at hd
    rw [simulate_security_status, simulate_channel_security,
      simulate_compromise_estimate, simulate_confidence_level]
    refine ⟨?_, ?_, ?_, ?_, ?_, ?_⟩
    · simp [security_status, hd]
    · simp [channel_security, hd]
    · simpa [compromise_estimate, hd] using h.compromiseEstimate_lb
    · simpa [compromise_estimate, hd] using le_of_lt h.compromiseEstimate_ub
    · simpa [confidence_level, hd] using h.confidenceLevel_lb
    · simpa [confidence_level, hd] using le_of_lt h.confidenceLevel_ub
  · intro hd
    rw [simulate_intercept_detected] at hd
    rw [simulate_security_status, simulate_channel_security,
      simulate_compromise_estimate, simulate_confidence_level]
    refine ⟨?_, ?_, ?_, ?_⟩ <;>
      simp [security_status, channel_security, compromise_estimate,
        confidence_level, hd]

/-- Witness for C5 at the interception run of `oracle0`. -/
theorem C5_security_assessment_witness :
    (simulate_qkd_satellite msg0 true oracle0).security_status = "COMPROMISED" ∧
    50 ≤ (simulate_qkd_satellite msg0 true oracle0).security_parameter :=
  ⟨((C5_security_assessment msg0 true oracle0 oracle0_wf).1 rfl).1,
   (C5_security_assessment msg0 true oracle0 oracle0_wf).2.2.1⟩

/-- C6: the security timeline always has exactly 20 samples; if the
intercept was detected each sample has QBER in [12, 25] and status WARNING
or ALERT, otherwise QBER in [1, 8] and status SECURE or CHECK. -/
theorem C6_timeline (m : List ℕ) (si : Bool) (o : Oracle) (h : o.WF) :
    (simulate_qkd_satellite m si o).security_timeline.length = 20 ∧
    ((simulate_qkd_satellite m si o).intercept_detected = true →
      ∀ s ∈ (simulate_qkd_satellite m si o).security_timeline,
        12 ≤ s.qber ∧ s.qber ≤ 25 ∧
          (s.status = "WARNING" ∨ s.status = "ALERT")) ∧
    ((simulate_qkd_satellite m si o).intercept_detected = false →
      ∀ s ∈ (simulate_qkd_satellite m si o).security_timeline,
        1 ≤ s.qber ∧ s.qber ≤ 8 ∧
          (s.status = "SECURE" ∨ s.status = "CHECK")) := by
  rw [simulate_security_timeline, simulate_intercept_detected]
  refine ⟨by simp [security_timeline], ?_, ?_⟩
  · intro hd s hs
    rw [security_timeline] at hs
    simp only [List.mem_map, List.mem_range] at hs
    obtain ⟨i, hi, rfl⟩ := hs
    simp only [hd, if_true]
    refine ⟨(h.timelineQberHigh_range i).1,
      le_of_lt (h.timelineQberHigh_range i).2, ?_⟩
    by_cases hc : o.timelineCoinAt i < 0.7
    · left
      simp [hc]
    · right
      simp [hc]
  · intro hd s hs
    rw [security_timeline] at hs
    simp only [List.mem_map, List.mem_range] at hs
    obtain ⟨i, hi, rfl⟩ := hs
    simp only [hd, if_false]
    refine ⟨(h.timelineQberLow_range i).1,
      le_of_lt (h.timelineQberLow_range i).2, ?_⟩
    by_cases hc : o.timelineCoinAt i < 0.9
    · left
      simp [hc]
    · right
      simp [hc]

/-- Witness for C6 at the no-interception run of `oracle0`. -/
theorem C6_timeline_witness :
    (simulate_qkd_satellite msg0 false oracle0).security_timeline.length = 20 :=
  (C6_timeline msg0 false oracle0 oracle0_wf).1

/-- C7: an empty message is rejected with a synchronous validation error
before the pipeline runs: `run_simulation` returns the error value, never
an `ok` result. -/
theorem C7_empty_message_rejected (si : Bool) (o : Oracle) :
    run_simulation [] si o = Except.error "Please enter a message to encrypt" := by
  rw [run_simulation]
  simp

/-- C8 counterexample: the phase driver's terminal verdict is computed
from the animation's own counters, not from the pipeline's QBER.  With
`oracle0` and interception requested, the pipeline's QBER is 20 (> 10),
yet the animation state with 10 matched bases and 0 error bits (reachable
in that run, since per-photon errors occur only with probability 0.3)
terminates in KEY_ESTABLISHED. -/
theorem C8_counterexample :
    phase5_result 10 0 = PhaseOutcome.KEY_ESTABLISHED ∧
    (simulate_qkd_satellite msg0 true oracle0).qber = 20 ∧
    ¬ ((simulate_qkd_satellite msg0 true oracle0).qber ≤ 10) := by
  refine ⟨?_, ?_, ?_⟩
  · have h0 : error_percentage 10 0 = 0 := by
      norm_num [error_percentage]
    norm_num [phase5_result, secure_key, h0]
  · rw [simulate_qber]
    norm_num [qber, oracle0]
  · rw [simulate_qber]
    norm_num [qber, oracle0]

/-- C8 (amended): the ERROR_CHECK verdict and the terminal branch both
compare the animation's locally accumulated error percentage
`error_bits / max(matched_bases, 1) * 100` against the threshold 10: the
above-threshold verdict is emitted iff that percentage exceeds 10, and the
terminal branch is KEY_ESTABLISHED iff it is at most 10, ABORTED iff it
exceeds 10. -/
theorem C8_error_check_verdict (matched_bases error_bits : ℕ) :
    (error_status matched_bases error_bits = "Error rate above threshold!" ↔
        10 < error_percentage matched_bases error_bits) ∧
    (phase5_result matched_bases error_bits = PhaseOutcome.KEY_ESTABLISHED ↔
        error_percentage matched_bases error_bits ≤ 10) ∧
    (phase5_result matched_bases error_bits = PhaseOutcome.ABORTED ↔
        10 < error_percentage matched_bases error_bits) := by
  rw [error_status, phase5_result, secure_key]
  by_cases hc : error_percentage matched_bases error_bits ≤ 10
  · rw [if_neg (by simpa [not_lt] using hc), if_pos (by simpa using hc)]
    refine ⟨?_, ?_, ?_⟩
    · constructor
      · intro hstr
        exact absurd hstr (by decide)
      · intro hgt
        exact absurd hgt (not_lt.mpr hc)
    · simp [hc]
    · constructor
      · intro hout
        exact absurd hout (by decide)
      · intro hgt
        exact absurd hgt (not_lt.mpr hc)
  · rw [if_pos (by simpa [not_le] using hc), if_neg (by simpa using hc)]
    refine ⟨?_, ?_, ?_⟩
    · simp [not_le.mp hc]
    · constructor
      · intro hout
        exact absurd hout (by decide)
      · intro hle
        exact absurd hle hc
    · simp [not_le.mp hc]

/-- C9: the pipeline is a pure function of the message, the interception
flag and the randomness oracle (which a fixed seed determines), so two
runs with identical inputs produce identical results in every field. -/
theorem C9_determinism (m₁ m₂ : List ℕ) (s₁ s₂ : Bool) (o₁ o₂ : Oracle)
    (hm : m₁ = m₂) (hs : s₁ = s₂) (ho : o₁ = o₂) :
    simulate_qkd_satellite m₁ s₁ o₁ = simulate_qkd_satellite m₂ s₂ o₂ := by
  subst hm
  subst hs
  subst ho
  rfl

/-- Witness for C9 at the concrete inputs `msg0`, `false`, `oracle0`. -/
theorem C9_determinism_witness :
    simulate_qkd_satellite msg0 false oracle0 =
      simulate_qkd_satellite msg0 false oracle0 :=
  C9_determinism msg0 msg0 false false oracle0 oracle0 rfl rfl rfl

/-- C10: without interception the drawn QBER lies below 8, so it can never
exceed the 11.0 detection cutoff: detection is false for every possible
random outcome, and the assessment is always SECURE / SECURE with
compromise estimate 0 and confidence 99.9. -/
theorem C10_no_interception_secure (m : List ℕ) (o : Oracle) (h : o.WF) :
    (simulate_qkd_satellite m false o).intercept_detected = false ∧
    (simulate_qkd_satellite m false o).security_status = "SECURE" ∧
    (simulate_qkd_satellite m false o).channel_security = "SECURE" ∧
    (simulate_qkd_satellite m false o).compromise_estimate = 0 ∧
    (simulate_qkd_satellite m false o).confidence_level = 99.9 := by
  have hn : ¬ (qber false o > 11) := by
    have hq : qber false o = o.qberLow := rfl
    rw [hq]
    have := h.qberLow_ub
    intro hgt
    linarith
  have hd : intercept_detected false o = false := by
    simp [intercept_detected, hn]
  rw [simulate_intercept_detected, simulate_security_status,
    simulate_channel_security, simulate_compromise_estimate,
    simulate_confidence_level]
  refine ⟨?_, ?_, ?_, ?_, ?_⟩ <;>
    simp [security_status, channel_security, compromise_estimate,
      confidence_level, hd]

/-- Witness for C10 at the no-interception run of `oracle0`. -/
theorem C10_no_interception_secure_witness :
    (simulate_qkd_satellite msg0 false oracle0).intercept_detected = false ∧
    (simulate_qkd_satellite msg0 false oracle0).security_status = "SECURE" :=
  ⟨(C10_no_interception_secure msg0 oracle0 oracle0_wf).1,
   (C10_no_interception_secure msg0 oracle0 oracle0_wf).2.1⟩

end QKD
